import Mathlib

/-!
Shallow embedding of the two MCP server cores in this repository:
`src/couchbase-mcp-monsters/src/index.ts` and
`src/couchbase-mcp-starwars/src/index.ts`.

The external Couchbase datastore is modelled as a record of response
functions (point-read, projected point-read, vector search), each returning
an explicit outcome that covers the ways the corresponding SDK call can
resolve or reject (success, document-not-found, connectivity failure,
timeout).  The async TS functions become state-passing Lean functions: the
module-level `cluster` variable and the number of `couchbase.connect` calls
form a `ConnState`, and every function additionally returns the list of
datastore operations it issued (its trace), so that claims about "zero
datastore calls" are statements about the trace.  A TS function that can
`throw` returns `Except String`, the thrown `Error` message being the
string.  JS `number` fields are carried as `Int`: the workflow never
computes with them, they are opaque payload.
-/

namespace CB

/-- Outcome of a single Couchbase point-read (`collection.get`), as the
calling `try`/`catch` observes it: either the resolved content, or one of
the rejection classes (document not found, connectivity/unavailable,
timeout). -/
inductive GetOutcome (α : Type) where
  | success (content : α)
  | notFound
  | unavailable
  | timeout
deriving DecidableEq, Repr

/-- One row of a Couchbase vector-search result: a document id and a
similarity score (`row.id`, `row.score`). -/
structure SearchRow where
  id : String
  score : Int
deriving DecidableEq, Repr

/-- Outcome of the vector-search step (`scope.search` raced against a
rejection timer): the ranked rows, the race lost to the timer
(`Search timeout`), or the search call itself rejecting with a message. -/
inductive SearchOutcome where
  | rows (rs : List SearchRow)
  | timeout
  | failure (msg : String)
deriving DecidableEq, Repr

/-- Datastore operations a run can issue; the trace of these is how the
model counts point-reads and searches. -/
inductive DsOp where
  | pointRead (docId : String)
  | projectedRead (docId : String)
  | vectorSearch (vec : List Int)
deriving DecidableEq, Repr

/-- Module-level connection state of one server process: the `cluster`
variable (`none` = not connected, `some h` = an open handle) together with
how many times `couchbase.connect` has run. -/
structure ConnState where
  cluster : Option Nat
  connects : Nat
deriving DecidableEq, Repr

/-- Connection state of a freshly started process: `cluster` is `null`. -/
def connInit : ConnState := ⟨none, 0⟩

/-- Lazily connect (`initCouchbase`, identical in both servers): connect
only when `cluster` is null, otherwise return the existing handle. -/
def initCouchbase (s : ConnState) : Nat × ConnState :=
  match s.cluster with
  | some h => (h, s)
  | none => (s.connects, ⟨some s.connects, s.connects + 1⟩)

/-- Resolve bucket/scope/collection (`getCollection`, identical in both
servers); its only observable effect in the model is the lazy connect. -/
def getCollection (s : ConnState) : ConnState :=
  (initCouchbase s).2

/-- Close the cluster handle and null the variable
(`if (cluster) { await cluster.close(); cluster = null; }`). -/
def closeCluster (s : ConnState) : ConnState :=
  match s.cluster with
  | some _ => ⟨none, s.connects⟩
  | none => s

/-- Value of `request.params.arguments?.name` as the handlers' guards see
it: absent, or a string. -/
inductive NameArg where
  | absent
  | str (s : String)
deriving DecidableEq, Repr

namespace Monsters

/-- Monster record, from the `Monster` interface of
`src/couchbase-mcp-monsters/src/index.ts`. -/
structure Monster where
  _id : String
  index : String
  name : String
  size : String
  type : String
  alignment : String
  hit_points : Int
  hit_dice : String
  strength : Int
  dexterity : Int
  constitution : Int
  intelligence : Int
  wisdom : Int
  charisma : Int
  languages : String
  challenge_rating : Int
  proficiency_bonus : Int
  xp : Int
  speed_walk : String
  proficiency_skill_deception : Int
  proficiency_skill_insight : Int
  proficiency_skill_persuasion : Int
  embedding : Option (List Int)
deriving DecidableEq, Repr

/-- Content of a point-read projected to
`['name', 'type', 'challenge_rating', 'size']`, the projection the
hydration reads request. -/
structure MonsterProjection where
  name : String
  type : String
  challenge_rating : Int
  size : String
deriving DecidableEq, Repr

/-- Similar-monster result (`SimilarMonster`): the projected fields spread
together with the search row's `score` and `id`. -/
structure SimilarMonster where
  name : String
  type : String
  challenge_rating : Int
  size : String
  score : Int
  id : String
deriving DecidableEq, Repr

/-- Response behaviour of the external datastore as the monsters server
sees it: full point-reads, projected point-reads, and vector search. -/
structure Datastore where
  get : String → GetOutcome Monster
  getProjected : String → GetOutcome MonsterProjection
  search : List Int → SearchOutcome

/-- Lower-casing as `String.prototype.toLowerCase` applies it: per
character. -/
def toLowerCase (s : String) : String :=
  String.mk (s.data.map Char.toLower)

/-- Document id derivation in `getMonster`:
`` `monster::${name.toLowerCase()}` ``. -/
def monsterDocId (name : String) : String :=
  "monster::" ++ toLowerCase name

/-- Point-lookup of a monster by name (`getMonster`): an empty name throws
before any datastore call; otherwise one point-read is issued and every
rejection class is caught and mapped to `null`. -/
def getMonster (ds : Datastore) (name : String) (s : ConnState) :
    Except String (Option Monster) × ConnState × List DsOp :=
  if name = "" then
    (.error "Monster name is required", s, [])
  else
    let docId := monsterDocId name
    let s1 := getCollection s
    match ds.get docId with
    | .success m => (.ok (some m), s1, [.pointRead docId])
    | .notFound => (.ok none, s1, [.pointRead docId])
    | .unavailable => (.ok none, s1, [.pointRead docId])
    | .timeout => (.ok none, s1, [.pointRead docId])

/-- Whether the projected hydration read for a document id succeeds. -/
def hydrateOk (ds : Datastore) (id : String) : Bool :=
  match ds.getProjected id with
  | .success _ => true
  | _ => false

/-- One hydration read of the fan-out in `findSimilarMonsters`: the
projected get with its own try/catch, a failed read becoming `null`. -/
def hydrateRow (ds : Datastore) (row : SearchRow) : Option SimilarMonster :=
  match ds.getProjected row.id with
  | .success content =>
      some ⟨content.name, content.type, content.challenge_rating,
            content.size, row.score, row.id⟩
  | _ => none

/-- Similarity workflow of the monsters server (`findSimilarMonsters`):
resolve the anchor monster, guard the embedding, run the raced vector
search, then hydrate the top rows and drop the failed ones. -/
def findSimilarMonsters (ds : Datastore) (monsterName : String)
    (s : ConnState) :
    Except String (List SimilarMonster) × ConnState × List DsOp :=
  match getMonster ds monsterName s with
  | (.error e, s1, ops) => (.error e, s1, ops)
  | (.ok none, s1, ops) =>
      (.error ("Monster not found: " ++ monsterName), s1, ops)
  | (.ok (some monsterDoc), s1, ops) =>
    match monsterDoc.embedding with
    | none =>
        (.error ("No embedding found for monster: " ++ monsterName), s1, ops)
    | some monsterEmbedding =>
      let s2 := (initCouchbase s1).2
      let ops2 := ops ++ [.vectorSearch monsterEmbedding]
      match ds.search monsterEmbedding with
      | .timeout => (.error "Vector search failed: Search timeout", s2, ops2)
      | .failure msg => (.error ("Vector search failed: " ++ msg), s2, ops2)
      | .rows rs =>
        if rs.length = 0 then
          (.ok [], s2, ops2)
        else
          let s3 := getCollection s2
          let top := rs.take 5
          let docs := top.map (hydrateRow ds)
          (.ok (docs.filterMap id), s3,
           ops2 ++ top.map (fun r => DsOp.projectedRead r.id))

/-- What a tool-call handler invocation produces at the transport boundary:
a structured error payload (`isError: true` with a message), a structured
success payload carrying the serialized value, or a thrown exception that
propagates out of the handler. -/
inductive HandlerOutcome where
  | errorPayload (text : String)
  | monsterPayload (m : Monster)
  | similarPayload (rs : List SimilarMonster)
  | thrown (msg : String)
deriving DecidableEq, Repr

/-- The `CallToolRequestSchema` handler of the monsters server: dispatch on
the tool name, guard the argument, and run the operation; exceptions from
the operations are not caught. -/
def callTool (ds : Datastore) (toolName : String) (arg : NameArg)
    (s : ConnState) : HandlerOutcome × ConnState × List DsOp :=
  if toolName = "fetch_monster_name" then
    match arg with
    | .absent => (.errorPayload "Monster name is required", s, [])
    | .str monsterName =>
      if monsterName = "" then
        (.errorPayload "Monster name is required", s, [])
      else
        match getMonster ds monsterName s with
        | (.error e, s1, ops) => (.thrown e, s1, ops)
        | (.ok none, s1, ops) =>
            (.errorPayload ("Monster \"" ++ monsterName ++ "\" not found"),
             s1, ops)
        | (.ok (some m), s1, ops) => (.monsterPayload m, s1, ops)
  else if toolName = "find_monsters_which_are_similar" then
    match arg with
    | .absent => (.errorPayload "Monster name must be a string", s, [])
    | .str monsterName =>
      match findSimilarMonsters ds monsterName s with
      | (.error e, s1, ops) => (.thrown e, s1, ops)
      | (.ok rs, s1, ops) => (.similarPayload rs, s1, ops)
  else
    (.thrown "Unknown tool", s, [])

end Monsters

namespace StarWars

/-- Planet record, from the `StarWarsCharacter` interface of
`src/couchbase-mcp-starwars/src/index.ts`. -/
structure StarWarsCharacter where
  name : String
  rotation_period : String
  orbital_period : String
  diameter : String
  climate : String
  gravity : String
  terrain : String
  surface_water : String
  population : String
  residents : List String
  films : List String
  created : String
  edited : String
  url : String
  embedding : Option (List Int)
deriving DecidableEq, Repr

/-- Content of a point-read projected to
`['name', 'climate', 'terrain', 'population']`, the projection the
hydration reads request. -/
structure CharacterProjection where
  name : String
  climate : String
  terrain : String
  population : String
deriving DecidableEq, Repr

/-- Similar-planet result (`SimilarCharacter`): the four projected fields
together with the search row's `score` and `id`. -/
structure SimilarCharacter where
  name : String
  climate : String
  terrain : String
  population : String
  score : Int
  id : String
deriving DecidableEq, Repr

/-- Response behaviour of the external datastore as the starwars server
sees it. -/
structure Datastore where
  get : String → GetOutcome StarWarsCharacter
  getProjected : String → GetOutcome CharacterProjection
  search : List Int → SearchOutcome

/-- Canonicalization rule of the starwars server
(`capitalizeFirstLetter`): upper-case the first character, lower-case the
rest. -/
def capitalizeFirstLetter (str : String) : String :=
  match str.data with
  | [] => ""
  | c :: rest => String.mk (c.toUpper :: rest.map Char.toLower)

/-- Point-lookup of a planet by name (`getCharacter`): an empty name throws
before any datastore call; the document id is the capitalized name; every
rejection class of the get is caught and mapped to `null`. -/
def getCharacter (ds : Datastore) (name : String) (s : ConnState) :
    Except String (Option StarWarsCharacter) × ConnState × List DsOp :=
  if name = "" then
    (.error "Planet name is required", s, [])
  else
    let docId := capitalizeFirstLetter name
    let s1 := getCollection s
    match ds.get docId with
    | .success m => (.ok (some m), s1, [.pointRead docId])
    | .notFound => (.ok none, s1, [.pointRead docId])
    | .unavailable => (.ok none, s1, [.pointRead docId])
    | .timeout => (.ok none, s1, [.pointRead docId])

/-- Whether the projected hydration read for a document id succeeds. -/
def hydrateOk (ds : Datastore) (id : String) : Bool :=
  match ds.getProjected id with
  | .success _ => true
  | _ => false

/-- One hydration read of the fan-out in `findSimilarCharacters`: the
projected get raced against its own timer, any rejection becoming `null`. -/
def hydrateRow (ds : Datastore) (row : SearchRow) : Option SimilarCharacter :=
  match ds.getProjected row.id with
  | .success content =>
      some ⟨content.name, content.climate, content.terrain,
            content.population, row.score, row.id⟩
  | _ => none

/-- Similarity workflow of the starwars server (`findSimilarCharacters`):
as in the monsters server, except that after a non-empty hydration fan-out,
and on the search-failure path, the cluster handle is closed and nulled. -/
def findSimilarCharacters (ds : Datastore) (planetName : String)
    (s : ConnState) :
    Except String (List SimilarCharacter) × ConnState × List DsOp :=
  match getCharacter ds planetName s with
  | (.error e, s1, ops) => (.error e, s1, ops)
  | (.ok none, s1, ops) =>
      (.error ("Planet not found: " ++ planetName), s1, ops)
  | (.ok (some planetDoc), s1, ops) =>
    match planetDoc.embedding with
    | none =>
        (.error ("No embedding found for planet: " ++ planetName), s1, ops)
    | some planetEmbedding =>
      let s2 := (initCouchbase s1).2
      let ops2 := ops ++ [.vectorSearch planetEmbedding]
      match ds.search planetEmbedding with
      | .timeout =>
          (.error "Vector search failed: Search timeout", closeCluster s2, ops2)
      | .failure msg =>
          (.error ("Vector search failed: " ++ msg), closeCluster s2, ops2)
      | .rows rs =>
        if rs.length = 0 then
          (.ok [], s2, ops2)
        else
          let s3 := getCollection s2
          let top := rs.take 5
          let docs := top.map (hydrateRow ds)
          (.ok (docs.filterMap id), closeCluster s3,
           ops2 ++ top.map (fun r => DsOp.projectedRead r.id))

/-- What a starwars tool-call handler invocation produces at the transport
boundary. -/
inductive HandlerOutcome where
  | errorPayload (text : String)
  | planetPayload (m : StarWarsCharacter)
  | similarPayload (rs : List SimilarCharacter)
  | thrown (msg : String)
deriving DecidableEq, Repr

/-- The `CallToolRequestSchema` handler of the starwars server. -/
def callTool (ds : Datastore) (toolName : String) (arg : NameArg)
    (s : ConnState) : HandlerOutcome × ConnState × List DsOp :=
  if toolName = "fetch_planet_name" then
    match arg with
    | .absent => (.errorPayload "Planet name is required", s, [])
    | .str planetName =>
      if planetName = "" then
        (.errorPayload "Planet name is required", s, [])
      else
        match getCharacter ds planetName s with
        | (.error e, s1, ops) => (.thrown e, s1, ops)
        | (.ok none, s1, ops) =>
            (.errorPayload ("Planet \"" ++ planetName ++ "\" not found"),
             s1, ops)
        | (.ok (some m), s1, ops) => (.planetPayload m, s1, ops)
  else if toolName = "find_planets_which_are_similar" then
    match arg with
    | .absent => (.errorPayload "Planet name must be a string", s, [])
    | .str planetName =>
      match findSimilarCharacters ds planetName s with
      | (.error e, s1, ops) => (.thrown e, s1, ops)
      | (.ok rs, s1, ops) => (.similarPayload rs, s1, ops)
  else
    (.thrown "Unknown tool", s, [])

end StarWars

/-! Concrete fixtures: small example datastores used to run the model on
explicit inputs. -/

/-- Example monster that carries an embedding. -/
def dragonDoc : Monsters.Monster :=
  ⟨"monster-dragon", "adult-red-dragon", "Adult Red Dragon", "Huge",
   "dragon", "chaotic evil", 256, "17d12", 27, 10, 25, 16, 13, 21,
   "Common, Draconic", 17, 6, 18000, "40 ft.", 0, 3, 0, some [1, 2, 3]⟩

/-- Example monster without an embedding. -/
def slimeDoc : Monsters.Monster :=
  ⟨"monster-slime", "gray-slime", "Gray Slime", "Medium", "ooze",
   "unaligned", 22, "3d8", 12, 6, 16, 1, 6, 2, "", 1, 2, 200, "10 ft.",
   0, 0, 0, none⟩

/-- The five ranked rows the example vector search returns. -/
def mRows : List SearchRow :=
  [⟨"m1", 90⟩, ⟨"m2", 80⟩, ⟨"m3", 70⟩, ⟨"m4", 60⟩, ⟨"m5", 50⟩]

/-- Monsters datastore in which `dragon` and `slime` exist, searching from
the dragon's embedding ranks five candidates, and the hydration read for
`m3` times out while the other four succeed. -/
def dsM : Monsters.Datastore where
  get := fun docId =>
    if docId = "monster::dragon" then .success dragonDoc
    else if docId = "monster::slime" then .success slimeDoc
    else .notFound
  getProjected := fun id =>
    if id = "m3" then .timeout
    else if id = "m1" ∨ id = "m2" ∨ id = "m4" ∨ id = "m5" then
      .success ⟨id, "beast", 2, "Large"⟩
    else .notFound
  search := fun vec => if vec = [1, 2, 3] then .rows mRows else .rows []

/-- Monsters datastore whose vector search always loses the race to the
timeout timer. -/
def dsMTimeout : Monsters.Datastore where
  get := fun docId =>
    if docId = "monster::dragon" then .success dragonDoc else .notFound
  getProjected := fun _ => .notFound
  search := fun _ => .timeout

/-- Monsters datastore that is unreachable: every call fails for a
connectivity reason. -/
def dsMUnavailable : Monsters.Datastore where
  get := fun _ => .unavailable
  getProjected := fun _ => .unavailable
  search := fun _ => .failure "unavailable"

/-- Monsters datastore that holds no documents at all. -/
def dsMNotFound : Monsters.Datastore where
  get := fun _ => .notFound
  getProjected := fun _ => .notFound
  search := fun _ => .rows []

/-- Example planet with an embedding. -/
def tatooineDoc : StarWars.StarWarsCharacter :=
  ⟨"Tatooine", "23", "304", "10465", "arid", "1 standard", "desert", "1",
   "200000", [], [], "2014-12-09", "2014-12-20",
   "https://swapi.dev/api/planets/1/", some [1, 2, 3]⟩

/-- Starwars datastore in which `Tatooine` exists and the search from its
embedding returns one candidate whose hydration succeeds. -/
def dsSW : StarWars.Datastore where
  get := fun docId =>
    if docId = "Tatooine" then .success tatooineDoc else .notFound
  getProjected := fun id =>
    if id = "p1" then .success ⟨"Hoth", "frozen", "tundra", "unknown"⟩
    else .notFound
  search := fun vec => if vec = [1, 2, 3] then .rows [⟨"p1", 95⟩] else .rows []

/-- Starwars datastore that is unreachable: every call fails for a
connectivity reason. -/
def dsSWUnavailable : StarWars.Datastore where
  get := fun _ => .unavailable
  getProjected := fun _ => .unavailable
  search := fun _ => .failure "unavailable"

/-- Starwars datastore whose vector search always loses the race to the
timeout timer. -/
def dsSWTimeout : StarWars.Datastore where
  get := fun docId =>
    if docId = "Tatooine" then .success tatooineDoc else .notFound
  getProjected := fun _ => .notFound
  search := fun _ => .timeout

/-- Example planet without an embedding. -/
def hothDoc : StarWars.StarWarsCharacter :=
  ⟨"Hoth", "23", "549", "7200", "frozen", "1.1 standard", "tundra", "100",
   "unknown", [], [], "2014-12-10", "2014-12-20",
   "https://swapi.dev/api/planets/4/", none⟩

/-- Starwars datastore in which `Hoth` exists but has no embedding. -/
def dsSWNoEmb : StarWars.Datastore where
  get := fun docId =>
    if docId = "Hoth" then .success hothDoc else .notFound
  getProjected := fun _ => .notFound
  search := fun _ => .rows []

/-! Helper lemmas about the embedded functions. -/

/-- Closing the handle leaves the `cluster` variable null. -/
theorem closeCluster_cluster (s : ConnState) : (closeCluster s).cluster = none := by
  unfold closeCluster
  cases h : s.cluster <;> simp [h]

/-- With an established handle, `initCouchbase` is the identity. -/
theorem initCouchbase_of_some (s : ConnState) (h : Nat)
    (hc : s.cluster = some h) : initCouchbase s = (h, s) := by
  unfold initCouchbase
  rw [hc]

/-- After `initCouchbase` the handle is always established. -/
theorem initCouchbase_isSome (s : ConnState) :
    ((initCouchbase s).2).cluster.isSome = true := by
  unfold initCouchbase
  cases hc : s.cluster <;> simp [hc]

/-- With an established handle, `getCollection` changes no state. -/
theorem getCollection_of_some (s : ConnState) (h : Nat)
    (hc : s.cluster = some h) : getCollection s = s := by
  unfold getCollection
  rw [initCouchbase_of_some s h hc]

/-- The resolver of the monsters server returns `.ok` for every non-empty
name: the catch block maps every rejection of the point-read to `null`. -/
theorem Monsters.getMonster_ne_error (ds : Monsters.Datastore) (name : String)
    (s : ConnState) (h : name ≠ "") (e : String) :
    (Monsters.getMonster ds name s).1 ≠ Except.error e := by
  simp only [Monsters.getMonster, if_neg h]
  split <;> simp

/-- The monsters resolver never issues a projected read. -/
theorem Monsters.getMonster_no_projectedRead (ds : Monsters.Datastore)
    (name : String) (s : ConnState) (d : String) :
    DsOp.projectedRead d ∉ (Monsters.getMonster ds name s).2.2 := by
  simp only [Monsters.getMonster]
  split
  · simp
  · split <;> simp

/-- The monsters resolver never issues a vector search. -/
theorem Monsters.getMonster_no_vectorSearch (ds : Monsters.Datastore)
    (name : String) (s : ConnState) (v : List Int) :
    DsOp.vectorSearch v ∉ (Monsters.getMonster ds name s).2.2 := by
  simp only [Monsters.getMonster]
  split
  · simp
  · split <;> simp

/-- The starwars resolver returns `.ok` for every non-empty name. -/
theorem StarWars.getCharacter_ne_error (ds : StarWars.Datastore)
    (name : String) (s : ConnState) (h : name ≠ "") (e : String) :
    (StarWars.getCharacter ds name s).1 ≠ Except.error e := by
  simp only [StarWars.getCharacter, if_neg h]
  split <;> simp

/-- The starwars resolver never issues a projected read. -/
theorem StarWars.getCharacter_no_projectedRead (ds : StarWars.Datastore)
    (name : String) (s : ConnState) (d : String) :
    DsOp.projectedRead d ∉ (StarWars.getCharacter ds name s).2.2 := by
  simp only [StarWars.getCharacter]
  split
  · simp
  · split <;> simp

/-- The starwars resolver never issues a vector search. -/
theorem StarWars.getCharacter_no_vectorSearch (ds : StarWars.Datastore)
    (name : String) (s : ConnState) (v : List Int) :
    DsOp.vectorSearch v ∉ (StarWars.getCharacter ds name s).2.2 := by
  simp only [StarWars.getCharacter]
  split
  · simp
  · split <;> simp

/-- Hydration fan-out count, monsters: the number of hydrated results plus
the number of dropped (failed-read) candidates is the number of candidates. -/
theorem Monsters.monster_length_hydrate (ds : Monsters.Datastore)
    (l : List SearchRow) :
    ((l.map (Monsters.hydrateRow ds)).filterMap id).length +
      (l.filter (fun r => !Monsters.hydrateOk ds r.id)).length = l.length := by
  induction l with
  | nil => rfl
  | cons r t ih =>
    cases h : ds.getProjected r.id <;>
      simp [Monsters.hydrateRow, Monsters.hydrateOk, h] at ih ⊢ <;> omega

/-- Hydration fan-out order, monsters: the ids of the hydrated results are
exactly the ids of the candidates whose read succeeded, in candidate
order. -/
theorem Monsters.monster_ids_hydrate (ds : Monsters.Datastore) (l : List SearchRow) :
    (((l.map (Monsters.hydrateRow ds)).filterMap id).map (fun x => x.id)) =
      ((l.filter (fun r => Monsters.hydrateOk ds r.id)).map (fun r => r.id)) := by
  induction l with
  | nil => rfl
  | cons r t ih =>
    cases h : ds.getProjected r.id <;>
      simp [Monsters.hydrateRow, Monsters.hydrateOk, h] at ih ⊢ <;>
      try exact ih

/-- Hydration fan-out count, starwars. -/
theorem StarWars.planet_length_hydrate (ds : StarWars.Datastore)
    (l : List SearchRow) :
    ((l.map (StarWars.hydrateRow ds)).filterMap id).length +
      (l.filter (fun r => !StarWars.hydrateOk ds r.id)).length = l.length := by
  induction l with
  | nil => rfl
  | cons r t ih =>
    cases h : ds.getProjected r.id <;>
      simp [StarWars.hydrateRow, StarWars.hydrateOk, h] at ih ⊢ <;> omega

/-- Hydration fan-out order, starwars. -/
theorem StarWars.planet_ids_hydrate (ds : StarWars.Datastore) (l : List SearchRow) :
    (((l.map (StarWars.hydrateRow ds)).filterMap id).map (fun x => x.id)) =
      ((l.filter (fun r => StarWars.hydrateOk ds r.id)).map (fun r => r.id)) := by
  induction l with
  | nil => rfl
  | cons r t ih =>
    cases h : ds.getProjected r.id <;>
      simp [StarWars.hydrateRow, StarWars.hydrateOk, h] at ih ⊢ <;>
      try exact ih

/-- On a successful resolve-and-search, `findSimilarMonsters` returns the
hydration of the top five rows, failed reads dropped. -/
theorem Monsters.monster_findSimilar_rows (ds : Monsters.Datastore) (name : String)
    (s : ConnState) (doc : Monsters.Monster) (emb : List Int)
    (rs : List SearchRow)
    (hdoc : (Monsters.getMonster ds name s).1 = Except.ok (some doc))
    (hemb : doc.embedding = some emb)
    (hrows : ds.search emb = SearchOutcome.rows rs) :
    (Monsters.findSimilarMonsters ds name s).1 =
      Except.ok (((rs.take 5).map (Monsters.hydrateRow ds)).filterMap id) := by
  rcases hg : Monsters.getMonster ds name s with ⟨r, s1, ops⟩
  rw [hg] at hdoc
  have hr : r = Except.ok (some doc) := hdoc
  subst hr
  by_cases hlen : rs.length = 0
  · have hnil := List.length_eq_zero.mp hlen
    subst hnil
    simp [Monsters.findSimilarMonsters, hg, hemb, hrows]
  · simp [Monsters.findSimilarMonsters, hg, hemb, hrows, hlen]

/-- On a successful resolve-and-search, `findSimilarCharacters` returns the
hydration of the top five rows, failed reads dropped. -/
theorem StarWars.planet_findSimilar_rows (ds : StarWars.Datastore) (name : String)
    (s : ConnState) (doc : StarWars.StarWarsCharacter) (emb : List Int)
    (rs : List SearchRow)
    (hdoc : (StarWars.getCharacter ds name s).1 = Except.ok (some doc))
    (hemb : doc.embedding = some emb)
    (hrows : ds.search emb = SearchOutcome.rows rs) :
    (StarWars.findSimilarCharacters ds name s).1 =
      Except.ok (((rs.take 5).map (StarWars.hydrateRow ds)).filterMap id) := by
  rcases hg : StarWars.getCharacter ds name s with ⟨r, s1, ops⟩
  rw [hg] at hdoc
  have hr : r = Except.ok (some doc) := hdoc
  subst hr
  by_cases hlen : rs.length = 0
  · have hnil := List.length_eq_zero.mp hlen
    subst hnil
    simp [StarWars.findSimilarCharacters, hg, hemb, hrows]
  · simp [StarWars.findSimilarCharacters, hg, hemb, hrows, hlen]

/-- With an established handle, the monsters resolver changes no
connection state. -/
theorem Monsters.getMonster_state_of_some (ds : Monsters.Datastore)
    (name : String) (s : ConnState) (h : Nat) (hc : s.cluster = some h) :
    (Monsters.getMonster ds name s).2.1 = s := by
  simp only [Monsters.getMonster]
  split
  · rfl
  · split <;> simp [getCollection_of_some s h hc]

/-- `getCharacter` depends on the supplied name only through its canonical
key. -/
theorem StarWars.getCharacter_congr (ds : StarWars.Datastore)
    (n1 n2 : String) (s : ConnState) (h1 : n1 ≠ "") (h2 : n2 ≠ "")
    (hc : StarWars.capitalizeFirstLetter n1 =
      StarWars.capitalizeFirstLetter n2) :
    StarWars.getCharacter ds n1 s = StarWars.getCharacter ds n2 s := by
  simp only [StarWars.getCharacter, if_neg h1, if_neg h2, hc]

/-! Claim theorems. -/

/-- Claim C1, counterexample: a failing find-similar request (name not
present in the datastore) does not come back as a structured error payload:
the `Monster not found` exception thrown inside the operation propagates
out of the tool call handler. -/
theorem claim_C1_counterexample :
    (Monsters.callTool dsMNotFound "find_monsters_which_are_similar"
        (NameArg.str "wyvern") connInit).1 =
      Monsters.HandlerOutcome.thrown "Monster not found: wyvern" ∧
    ∀ text,
      (Monsters.callTool dsMNotFound "find_monsters_which_are_similar"
          (NameArg.str "wyvern") connInit).1 ≠
        Monsters.HandlerOutcome.errorPayload text := by
  refine ⟨rfl, fun text h => ?_⟩
  exact absurd ((rfl :
    (Monsters.callTool dsMNotFound "find_monsters_which_are_similar"
        (NameArg.str "wyvern") connInit).1 =
      Monsters.HandlerOutcome.thrown "Monster not found: wyvern").symm.trans h)
    (fun hx => Monsters.HandlerOutcome.noConfusion hx)

/-- Claim C1 (amended): in both servers the fetch-by-name handler reports
every failure as a structured error payload and never lets an exception
escape; but every failure of the find-similar workflow — not-found, missing
embedding, search failure or timeout, empty name — propagates out of the
find-similar tool handler as a thrown exception rather than a structured
error payload. -/
theorem claim_C1_theorem :
    (∀ (ds : Monsters.Datastore) (arg : NameArg) (s : ConnState)
        (msg : String),
      (Monsters.callTool ds "fetch_monster_name" arg s).1 ≠
        Monsters.HandlerOutcome.thrown msg) ∧
    (∀ (ds : Monsters.Datastore) (name : String) (s : ConnState) (e : String),
      (Monsters.findSimilarMonsters ds name s).1 = Except.error e →
      (Monsters.callTool ds "find_monsters_which_are_similar"
          (NameArg.str name) s).1 = Monsters.HandlerOutcome.thrown e) ∧
    (∀ (ds : StarWars.Datastore) (arg : NameArg) (s : ConnState)
        (msg : String),
      (StarWars.callTool ds "fetch_planet_name" arg s).1 ≠
        StarWars.HandlerOutcome.thrown msg) ∧
    (∀ (ds : StarWars.Datastore) (name : String) (s : ConnState) (e : String),
      (StarWars.findSimilarCharacters ds name s).1 = Except.error e →
      (StarWars.callTool ds "find_planets_which_are_similar"
          (NameArg.str name) s).1 = StarWars.HandlerOutcome.thrown e) := by
  refine ⟨?_, ?_, ?_, ?_⟩
  · intro ds arg s msg h
    cases arg with
    | absent => simp [Monsters.callTool] at h
    | str n =>
      by_cases hn : n = ""
      · subst hn; simp [Monsters.callTool] at h
      · rcases hg : Monsters.getMonster ds n s with ⟨r, s1, ops⟩
        cases r with
        | error e =>
          exact Monsters.getMonster_ne_error ds n s hn e
            (by rw [hg])
        | ok o =>
          cases o <;>
            simp [Monsters.callTool, if_neg hn, hg] at h
  · intro ds name s e h
    rcases hf : Monsters.findSimilarMonsters ds name s with ⟨r, s1, ops⟩
    rw [hf] at h
    have hr : r = Except.error e := h
    subst hr
    simp [Monsters.callTool, hf]
  · intro ds arg s msg h
    cases arg with
    | absent => simp [StarWars.callTool] at h
    | str n =>
      by_cases hn : n = ""
      · subst hn; simp [StarWars.callTool] at h
      · rcases hg : StarWars.getCharacter ds n s with ⟨r, s1, ops⟩
        cases r with
        | error e =>
          exact StarWars.getCharacter_ne_error ds n s hn e
            (by rw [hg])
        | ok o =>
          cases o <;>
            simp [StarWars.callTool, if_neg hn, hg] at h
  · intro ds name s e h
    rcases hf : StarWars.findSimilarCharacters ds name s with ⟨r, s1, ops⟩
    rw [hf] at h
    have hr : r = Except.error e := h
    subst hr
    simp [StarWars.callTool, hf]

/-- Claim C1, witness: the amended statement applied to the concrete
failing find-similar request for `wyvern` against the empty datastore, and
to a concrete fetch request. -/
theorem claim_C1_witness :
    (Monsters.callTool dsMNotFound "find_monsters_which_are_similar"
        (NameArg.str "wyvern") connInit).1 =
      Monsters.HandlerOutcome.thrown "Monster not found: wyvern" ∧
    (StarWars.callTool dsSW "find_planets_which_are_similar"
        (NameArg.str "Hoth") connInit).1 =
      StarWars.HandlerOutcome.thrown "Planet not found: Hoth" :=
  ⟨claim_C1_theorem.2.1 dsMNotFound "wyvern" connInit
      "Monster not found: wyvern" rfl,
   claim_C1_theorem.2.2.2 dsSW "Hoth" connInit
      "Planet not found: Hoth" rfl⟩

/-- Claim C2, counterexample: the monsters resolver maps a datastore
connectivity failure (`unavailable`) to exactly the same outcome as a
missing key (`notFound`): both runs return `.ok none`, so callers cannot
tell connectivity loss from a missing document. -/
theorem claim_C2_counterexample :
    (Monsters.getMonster dsMUnavailable "wyvern" connInit).1 =
      Except.ok none ∧
    (Monsters.getMonster dsMNotFound "wyvern" connInit).1 = Except.ok none ∧
    (Monsters.getMonster dsMUnavailable "wyvern" connInit).1 =
      (Monsters.getMonster dsMNotFound "wyvern" connInit).1 :=
  ⟨rfl, rfl, rfl⟩

/-- Claim C2 (amended): for every non-empty name, any failing point-read —
connectivity failure, timeout, or document-not-found alike — is caught by
the resolver and mapped to the same `null` result, in both servers; an
Unavailable-class failure is not distinguishable from NotFound. -/
theorem claim_C2_theorem :
    (∀ (ds : Monsters.Datastore) (name : String) (s : ConnState),
      name ≠ "" →
      (ds.get (Monsters.monsterDocId name) = GetOutcome.unavailable ∨
       ds.get (Monsters.monsterDocId name) = GetOutcome.timeout ∨
       ds.get (Monsters.monsterDocId name) = GetOutcome.notFound) →
      (Monsters.getMonster ds name s).1 = Except.ok none) ∧
    (∀ (ds : StarWars.Datastore) (name : String) (s : ConnState),
      name ≠ "" →
      (ds.get (StarWars.capitalizeFirstLetter name) = GetOutcome.unavailable ∨
       ds.get (StarWars.capitalizeFirstLetter name) = GetOutcome.timeout ∨
       ds.get (StarWars.capitalizeFirstLetter name) = GetOutcome.notFound) →
      (StarWars.getCharacter ds name s).1 = Except.ok none) := by
  constructor
  · intro ds name s h hfail
    simp only [Monsters.getMonster, if_neg h]
    rcases hfail with hf | hf | hf <;> rw [hf]
  · intro ds name s h hfail
    simp only [StarWars.getCharacter, if_neg h]
    rcases hfail with hf | hf | hf <;> rw [hf]

/-- Claim C2, witness: the amended statement applied to the unreachable
example datastores at the name `wyvern`. -/
theorem claim_C2_witness :
    (Monsters.getMonster dsMUnavailable "wyvern" connInit).1 =
      Except.ok none ∧
    (StarWars.getCharacter dsSWUnavailable "wyvern" connInit).1 =
      Except.ok none :=
  ⟨claim_C2_theorem.1 dsMUnavailable "wyvern" connInit (by decide)
      (Or.inl rfl),
   claim_C2_theorem.2 dsSWUnavailable "wyvern" connInit (by decide)
      (Or.inl rfl)⟩

/-- Claim C3: when resolve and search succeed, `findSimilar` (both servers)
returns a success whose elements are the candidates whose hydration read
succeeded: hydrated count plus dropped count equals the candidate count, an
empty candidate list yields the empty success result, and when all `5`
candidates are ranked and exactly one hydration read fails the result holds
`4` elements. -/
theorem claim_C3_theorem :
    (∀ (ds : Monsters.Datastore) (name : String) (s : ConnState)
        (doc : Monsters.Monster) (emb : List Int) (rs : List SearchRow),
      (Monsters.getMonster ds name s).1 = Except.ok (some doc) →
      doc.embedding = some emb →
      ds.search emb = SearchOutcome.rows rs →
      (rs = [] → (Monsters.findSimilarMonsters ds name s).1 = Except.ok []) ∧
      (Monsters.findSimilarMonsters ds name s).1 =
        Except.ok (((rs.take 5).map (Monsters.hydrateRow ds)).filterMap id) ∧
      (((rs.take 5).map (Monsters.hydrateRow ds)).filterMap id).length +
          ((rs.take 5).filter
            (fun r => !Monsters.hydrateOk ds r.id)).length =
        (rs.take 5).length ∧
      (rs.length = 5 →
       (rs.filter (fun r => !Monsters.hydrateOk ds r.id)).length = 1 →
       (((rs.take 5).map (Monsters.hydrateRow ds)).filterMap id).length = 4)) ∧
    (∀ (ds : StarWars.Datastore) (name : String) (s : ConnState)
        (doc : StarWars.StarWarsCharacter) (emb : List Int)
        (rs : List SearchRow),
      (StarWars.getCharacter ds name s).1 = Except.ok (some doc) →
      doc.embedding = some emb →
      ds.search emb = SearchOutcome.rows rs →
      (rs = [] →
        (StarWars.findSimilarCharacters ds name s).1 = Except.ok []) ∧
      (StarWars.findSimilarCharacters ds name s).1 =
        Except.ok (((rs.take 5).map (StarWars.hydrateRow ds)).filterMap id) ∧
      (((rs.take 5).map (StarWars.hydrateRow ds)).filterMap id).length +
          ((rs.take 5).filter
            (fun r => !StarWars.hydrateOk ds r.id)).length =
        (rs.take 5).length ∧
      (rs.length = 5 →
       (rs.filter (fun r => !StarWars.hydrateOk ds r.id)).length = 1 →
       (((rs.take 5).map (StarWars.hydrateRow ds)).filterMap id).length = 4)) := by
  constructor
  · intro ds name s doc emb rs hdoc hemb hrows
    have hmain := Monsters.monster_findSimilar_rows ds name s doc emb rs hdoc hemb hrows
    have hcount := Monsters.monster_length_hydrate ds (rs.take 5)
    refine ⟨?_, hmain, hcount, ?_⟩
    · intro hnil; subst hnil; simpa using hmain
    · intro h5 h1
      have htake : rs.take 5 = rs := List.take_of_length_le (by omega)
      rw [htake] at hcount ⊢
      omega
  · intro ds name s doc emb rs hdoc hemb hrows
    have hmain := StarWars.planet_findSimilar_rows ds name s doc emb rs hdoc hemb hrows
    have hcount := StarWars.planet_length_hydrate ds (rs.take 5)
    refine ⟨?_, hmain, hcount, ?_⟩
    · intro hnil; subst hnil; simpa using hmain
    · intro h5 h1
      have htake : rs.take 5 = rs := List.take_of_length_le (by omega)
      rw [htake] at hcount ⊢
      omega

/-- Claim C3, witness: against the example datastore, searching from the
dragon's embedding ranks five candidates of which only `m3` fails
hydration: the operation succeeds with four results; the empty-candidate
case is witnessed by the starwars run. -/
theorem claim_C3_witness :
    (((mRows.take 5).map (Monsters.hydrateRow dsM)).filterMap id).length = 4 ∧
    (Monsters.findSimilarMonsters dsM "dragon" connInit).1 =
      Except.ok (((mRows.take 5).map (Monsters.hydrateRow dsM)).filterMap id) :=
  ⟨(claim_C3_theorem.1 dsM "dragon" connInit dragonDoc [1, 2, 3] mRows
      (by rfl) rfl rfl).2.2.2 rfl (by decide),
   (claim_C3_theorem.1 dsM "dragon" connInit dragonDoc [1, 2, 3] mRows
      (by rfl) rfl rfl).2.1⟩

/-- Claim C4: the output of `findSimilar` (both servers) preserves the
relative order of the candidates as ranked by the search: its ids are
exactly the ids of the surviving candidates in candidate order, and they
form a sublist of the full ranked id sequence, so dropping failed
candidates never reorders the survivors. -/
theorem claim_C4_theorem :
    (∀ (ds : Monsters.Datastore) (name : String) (s : ConnState)
        (doc : Monsters.Monster) (emb : List Int) (rs : List SearchRow),
      (Monsters.getMonster ds name s).1 = Except.ok (some doc) →
      doc.embedding = some emb →
      ds.search emb = SearchOutcome.rows rs →
      (Monsters.findSimilarMonsters ds name s).1 =
        Except.ok (((rs.take 5).map (Monsters.hydrateRow ds)).filterMap id) ∧
      ((((rs.take 5).map (Monsters.hydrateRow ds)).filterMap id).map
          (fun x => x.id)) =
        (((rs.take 5).filter (fun r => Monsters.hydrateOk ds r.id)).map
          (fun r => r.id)) ∧
      List.Sublist
        ((((rs.take 5).map (Monsters.hydrateRow ds)).filterMap id).map
          (fun x => x.id))
        (rs.map (fun r => r.id))) ∧
    (∀ (ds : StarWars.Datastore) (name : String) (s : ConnState)
        (doc : StarWars.StarWarsCharacter) (emb : List Int)
        (rs : List SearchRow),
      (StarWars.getCharacter ds name s).1 = Except.ok (some doc) →
      doc.embedding = some emb →
      ds.search emb = SearchOutcome.rows rs →
      (StarWars.findSimilarCharacters ds name s).1 =
        Except.ok (((rs.take 5).map (StarWars.hydrateRow ds)).filterMap id) ∧
      ((((rs.take 5).map (StarWars.hydrateRow ds)).filterMap id).map
          (fun x => x.id)) =
        (((rs.take 5).filter (fun r => StarWars.hydrateOk ds r.id)).map
          (fun r => r.id)) ∧
      List.Sublist
        ((((rs.take 5).map (StarWars.hydrateRow ds)).filterMap id).map
          (fun x => x.id))
        (rs.map (fun r => r.id))) := by
  constructor
  · intro ds name s doc emb rs hdoc hemb hrows
    have hids := Monsters.monster_ids_hydrate ds (rs.take 5)
    refine ⟨Monsters.monster_findSimilar_rows ds name s doc emb rs hdoc hemb hrows,
      hids, ?_⟩
    rw [hids]
    exact List.Sublist.trans
      (((rs.take 5).filter_sublist).map (fun r => r.id))
      ((List.take_sublist 5 rs).map (fun r => r.id))
  · intro ds name s doc emb rs hdoc hemb hrows
    have hids := StarWars.planet_ids_hydrate ds (rs.take 5)
    refine ⟨StarWars.planet_findSimilar_rows ds name s doc emb rs hdoc hemb hrows,
      hids, ?_⟩
    rw [hids]
    exact List.Sublist.trans
      (((rs.take 5).filter_sublist).map (fun r => r.id))
      ((List.take_sublist 5 rs).map (fun r => r.id))

/-- Claim C4, witness: in the example run the surviving ids are
`m1, m2, m4, m5`, in the search's ranking order. -/
theorem claim_C4_witness :
    ((((mRows.take 5).map (Monsters.hydrateRow dsM)).filterMap id).map
        (fun x => x.id)) =
      (((mRows.take 5).filter (fun r => Monsters.hydrateOk dsM r.id)).map
        (fun r => r.id)) ∧
    List.Sublist
      ((((mRows.take 5).map (Monsters.hydrateRow dsM)).filterMap id).map
        (fun x => x.id))
      (mRows.map (fun r => r.id)) :=
  ⟨(claim_C4_theorem.1 dsM "dragon" connInit dragonDoc [1, 2, 3] mRows
      (by rfl) rfl rfl).2.1,
   (claim_C4_theorem.1 dsM "dragon" connInit dragonDoc [1, 2, 3] mRows
      (by rfl) rfl rfl).2.2⟩

/-- Claim C5: when the similarity-search step times out, `findSimilar`
(both servers) fails with the `Vector search failed: Search timeout` error
and returns no result list, and its trace contains no hydration
(projected) read: hydration is never attempted after a search timeout. -/
theorem claim_C5_theorem :
    (∀ (ds : Monsters.Datastore) (name : String) (s : ConnState)
        (doc : Monsters.Monster) (emb : List Int),
      (Monsters.getMonster ds name s).1 = Except.ok (some doc) →
      doc.embedding = some emb →
      ds.search emb = SearchOutcome.timeout →
      (Monsters.findSimilarMonsters ds name s).1 =
        Except.error "Vector search failed: Search timeout" ∧
      ∀ d, DsOp.projectedRead d ∉
        (Monsters.findSimilarMonsters ds name s).2.2) ∧
    (∀ (ds : StarWars.Datastore) (name : String) (s : ConnState)
        (doc : StarWars.StarWarsCharacter) (emb : List Int),
      (StarWars.getCharacter ds name s).1 = Except.ok (some doc) →
      doc.embedding = some emb →
      ds.search emb = SearchOutcome.timeout →
      (StarWars.findSimilarCharacters ds name s).1 =
        Except.error "Vector search failed: Search timeout" ∧
      ∀ d, DsOp.projectedRead d ∉
        (StarWars.findSimilarCharacters ds name s).2.2) := by
  constructor
  · intro ds name s doc emb hdoc hemb hto
    rcases hg : Monsters.getMonster ds name s with ⟨r, s1, ops⟩
    rw [hg] at hdoc
    have hr : r = Except.ok (some doc) := hdoc
    subst hr
    constructor
    · simp [Monsters.findSimilarMonsters, hg, hemb, hto]
    · intro d hmem
      simp [Monsters.findSimilarMonsters, hg, hemb, hto] at hmem
      exact Monsters.getMonster_no_projectedRead ds name s d
        (by rw [hg]; exact hmem)
  · intro ds name s doc emb hdoc hemb hto
    rcases hg : StarWars.getCharacter ds name s with ⟨r, s1, ops⟩
    rw [hg] at hdoc
    have hr : r = Except.ok (some doc) := hdoc
    subst hr
    constructor
    · simp [StarWars.findSimilarCharacters, hg, hemb, hto]
    · intro d hmem
      simp [StarWars.findSimilarCharacters, hg, hemb, hto] at hmem
      exact StarWars.getCharacter_no_projectedRead ds name s d
        (by rw [hg]; exact hmem)

/-- Claim C5, witness: against the timeout example datastores, both
similarity workflows fail with the search-timeout error and issue no
hydration read. -/
theorem claim_C5_witness :
    ((Monsters.findSimilarMonsters dsMTimeout "dragon" connInit).1 =
      Except.error "Vector search failed: Search timeout") ∧
    (DsOp.projectedRead "m1" ∉
      (Monsters.findSimilarMonsters dsMTimeout "dragon" connInit).2.2) ∧
    ((StarWars.findSimilarCharacters dsSWTimeout "Tatooine" connInit).1 =
      Except.error "Vector search failed: Search timeout") ∧
    (DsOp.projectedRead "p1" ∉
      (StarWars.findSimilarCharacters dsSWTimeout "Tatooine" connInit).2.2) :=
  ⟨(claim_C5_theorem.1 dsMTimeout "dragon" connInit dragonDoc [1, 2, 3]
      (by rfl) rfl rfl).1,
   (claim_C5_theorem.1 dsMTimeout "dragon" connInit dragonDoc [1, 2, 3]
      (by rfl) rfl rfl).2 "m1",
   (claim_C5_theorem.2 dsSWTimeout "Tatooine" connInit tatooineDoc [1, 2, 3]
      (by rfl) rfl rfl).1,
   (claim_C5_theorem.2 dsSWTimeout "Tatooine" connInit tatooineDoc [1, 2, 3]
      (by rfl) rfl rfl).2 "p1"⟩

/-- Claim C6: when the resolved entity has no `embedding` attribute,
`findSimilar` (both servers) fails with the no-embedding error — a message
distinct from the not-found error — and its trace contains no
vector-search call. -/
theorem claim_C6_theorem :
    (∀ (ds : Monsters.Datastore) (name : String) (s : ConnState)
        (doc : Monsters.Monster),
      (Monsters.getMonster ds name s).1 = Except.ok (some doc) →
      doc.embedding = none →
      (Monsters.findSimilarMonsters ds name s).1 =
        Except.error ("No embedding found for monster: " ++ name) ∧
      ("No embedding found for monster: " ++ name) ≠
        ("Monster not found: " ++ name) ∧
      ∀ v, DsOp.vectorSearch v ∉
        (Monsters.findSimilarMonsters ds name s).2.2) ∧
    (∀ (ds : StarWars.Datastore) (name : String) (s : ConnState)
        (doc : StarWars.StarWarsCharacter),
      (StarWars.getCharacter ds name s).1 = Except.ok (some doc) →
      doc.embedding = none →
      (StarWars.findSimilarCharacters ds name s).1 =
        Except.error ("No embedding found for planet: " ++ name) ∧
      ("No embedding found for planet: " ++ name) ≠
        ("Planet not found: " ++ name) ∧
      ∀ v, DsOp.vectorSearch v ∉
        (StarWars.findSimilarCharacters ds name s).2.2) := by
  constructor
  · intro ds name s doc hdoc hemb
    rcases hg : Monsters.getMonster ds name s with ⟨r, s1, ops⟩
    rw [hg] at hdoc
    have hr : r = Except.ok (some doc) := hdoc
    subst hr
    refine ⟨?_, ?_, ?_⟩
    · simp [Monsters.findSimilarMonsters, hg, hemb]
    · intro h
      have hlen := congrArg String.length h
      rw [String.length_append, String.length_append] at hlen
      have e1 : ("No embedding found for monster: ").length = 32 := rfl
      have e2 : ("Monster not found: ").length = 19 := rfl
      rw [e1, e2] at hlen
      omega
    · intro v hmem
      simp [Monsters.findSimilarMonsters, hg, hemb] at hmem
      exact Monsters.getMonster_no_vectorSearch ds name s v
        (by rw [hg]; exact hmem)
  · intro ds name s doc hdoc hemb
    rcases hg : StarWars.getCharacter ds name s with ⟨r, s1, ops⟩
    rw [hg] at hdoc
    have hr : r = Except.ok (some doc) := hdoc
    subst hr
    refine ⟨?_, ?_, ?_⟩
    · simp [StarWars.findSimilarCharacters, hg, hemb]
    · intro h
      have hlen := congrArg String.length h
      rw [String.length_append, String.length_append] at hlen
      have e1 : ("No embedding found for planet: ").length = 31 := rfl
      have e2 : ("Planet not found: ").length = 18 := rfl
      rw [e1, e2] at hlen
      omega
    · intro v hmem
      simp [StarWars.findSimilarCharacters, hg, hemb] at hmem
      exact StarWars.getCharacter_no_vectorSearch ds name s v
        (by rw [hg]; exact hmem)

/-- Claim C6, witness: the slime monster and the Hoth planet exist but
carry no embedding; both similarity workflows fail with the no-embedding
error and never reach the vector search. -/
theorem claim_C6_witness :
    ((Monsters.findSimilarMonsters dsM "slime" connInit).1 =
      Except.error "No embedding found for monster: slime") ∧
    (DsOp.vectorSearch [1, 2, 3] ∉
      (Monsters.findSimilarMonsters dsM "slime" connInit).2.2) ∧
    ((StarWars.findSimilarCharacters dsSWNoEmb "Hoth" connInit).1 =
      Except.error "No embedding found for planet: Hoth") :=
  ⟨(claim_C6_theorem.1 dsM "slime" connInit slimeDoc (by rfl) rfl).1,
   (claim_C6_theorem.1 dsM "slime" connInit slimeDoc (by rfl) rfl).2.2
     [1, 2, 3],
   (claim_C6_theorem.2 dsSWNoEmb "Hoth" connInit hothDoc (by rfl) rfl).1⟩

/-- Claim C7: for an empty or absent name, the resolvers and all four tool
operations produce an InvalidArgument-class error (the required-name /
must-be-a-string messages) with an empty datastore trace: no point-read and
no search is issued, and the connection state is untouched. -/
theorem claim_C7_theorem (dsm : Monsters.Datastore) (dssw : StarWars.Datastore)
    (s : ConnState) :
    Monsters.getMonster dsm "" s =
      (Except.error "Monster name is required", s, []) ∧
    StarWars.getCharacter dssw "" s =
      (Except.error "Planet name is required", s, []) ∧
    Monsters.callTool dsm "fetch_monster_name" NameArg.absent s =
      (Monsters.HandlerOutcome.errorPayload "Monster name is required", s, []) ∧
    Monsters.callTool dsm "fetch_monster_name" (NameArg.str "") s =
      (Monsters.HandlerOutcome.errorPayload "Monster name is required", s, []) ∧
    Monsters.callTool dsm "find_monsters_which_are_similar" NameArg.absent s =
      (Monsters.HandlerOutcome.errorPayload "Monster name must be a string",
       s, []) ∧
    Monsters.callTool dsm "find_monsters_which_are_similar" (NameArg.str "") s =
      (Monsters.HandlerOutcome.thrown "Monster name is required", s, []) ∧
    StarWars.callTool dssw "fetch_planet_name" NameArg.absent s =
      (StarWars.HandlerOutcome.errorPayload "Planet name is required", s, []) ∧
    StarWars.callTool dssw "fetch_planet_name" (NameArg.str "") s =
      (StarWars.HandlerOutcome.errorPayload "Planet name is required", s, []) ∧
    StarWars.callTool dssw "find_planets_which_are_similar" NameArg.absent s =
      (StarWars.HandlerOutcome.errorPayload "Planet name must be a string",
       s, []) ∧
    StarWars.callTool dssw "find_planets_which_are_similar" (NameArg.str "") s =
      (StarWars.HandlerOutcome.thrown "Planet name is required", s, []) :=
  ⟨rfl, rfl, rfl, rfl, rfl, rfl, rfl, rfl, rfl, rfl⟩

/-- Claim C8, counterexample: in the starwars server the connection handle
is not established at most once per process and does not remain available:
one successful find-similar call ends with the handle closed and nulled,
and a second identical call has to connect again — two connection
establishments across two operations. -/
theorem claim_C8_counterexample :
    (StarWars.findSimilarCharacters dsSW "Tatooine" connInit).2.1.cluster =
      none ∧
    (StarWars.findSimilarCharacters dsSW "Tatooine" connInit).2.1.connects =
      1 ∧
    (StarWars.findSimilarCharacters dsSW "Tatooine"
        (StarWars.findSimilarCharacters dsSW "Tatooine"
          connInit).2.1).2.1.connects = 2 :=
  ⟨rfl, rfl, rfl⟩

/-- Claim C8 (amended): the handle is lazily established — `initCouchbase`
connects only when the handle is null, is the identity once a handle
exists, and always leaves a handle established — and the monsters server's
similarity operation reuses an established handle without tearing it down;
but the starwars find-similar operation closes and nulls the handle both
after a non-empty hydration fan-out and on the search-failure path, so a
subsequent operation must re-establish the connection. -/
theorem claim_C8_theorem :
    (∀ (s : ConnState) (h : Nat),
      s.cluster = some h → initCouchbase s = (h, s)) ∧
    (∀ s : ConnState, ((initCouchbase s).2).cluster.isSome = true) ∧
    (∀ (ds : Monsters.Datastore) (name : String) (s : ConnState) (h : Nat),
      s.cluster = some h →
      (Monsters.findSimilarMonsters ds name s).2.1 = s) ∧
    (∀ (ds : StarWars.Datastore) (name : String) (s : ConnState)
        (doc : StarWars.StarWarsCharacter) (emb : List Int)
        (rs : List SearchRow),
      (StarWars.getCharacter ds name s).1 = Except.ok (some doc) →
      doc.embedding = some emb →
      ds.search emb = SearchOutcome.rows rs → rs ≠ [] →
      (StarWars.findSimilarCharacters ds name s).2.1.cluster = none) ∧
    (∀ (ds : StarWars.Datastore) (name : String) (s : ConnState)
        (doc : StarWars.StarWarsCharacter) (emb : List Int),
      (StarWars.getCharacter ds name s).1 = Except.ok (some doc) →
      doc.embedding = some emb →
      ds.search emb = SearchOutcome.timeout →
      (StarWars.findSimilarCharacters ds name s).2.1.cluster = none) := by
  refine ⟨initCouchbase_of_some, initCouchbase_isSome, ?_, ?_, ?_⟩
  · intro ds name s h hc
    rcases hg : Monsters.getMonster ds name s with ⟨r, s1, ops⟩
    have hs1 : s1 = s := by
      have hst := Monsters.getMonster_state_of_some ds name s h hc
      rw [hg] at hst
      exact hst
    subst hs1
    cases r with
    | error e => simp [Monsters.findSimilarMonsters, hg]
    | ok o =>
      cases o with
      | none => simp [Monsters.findSimilarMonsters, hg]
      | some doc =>
        cases hemb : doc.embedding with
        | none => simp [Monsters.findSimilarMonsters, hg, hemb]
        | some emb =>
          have hinit : initCouchbase s1 = (h, s1) :=
            initCouchbase_of_some s1 h hc
          cases hsr : ds.search emb with
          | rows rs =>
            by_cases hlen : rs.length = 0 <;>
              simp [Monsters.findSimilarMonsters, hg, hemb, hsr, hinit, hlen,
                getCollection_of_some s1 h hc]
          | timeout =>
            simp [Monsters.findSimilarMonsters, hg, hemb, hsr, hinit]
          | failure m =>
            simp [Monsters.findSimilarMonsters, hg, hemb, hsr, hinit]
  · intro ds name s doc emb rs hdoc hemb hsr hne
    rcases hg : StarWars.getCharacter ds name s with ⟨r, s1, ops⟩
    rw [hg] at hdoc
    have hr : r = Except.ok (some doc) := hdoc
    subst hr
    have hlen : ¬rs.length = 0 := fun h0 => hne (List.length_eq_zero.mp h0)
    simp [StarWars.findSimilarCharacters, hg, hemb, hsr, hlen,
      closeCluster_cluster]
  · intro ds name s doc emb hdoc hemb hto
    rcases hg : StarWars.getCharacter ds name s with ⟨r, s1, ops⟩
    rw [hg] at hdoc
    have hr : r = Except.ok (some doc) := hdoc
    subst hr
    simp [StarWars.findSimilarCharacters, hg, hemb, hto, closeCluster_cluster]

/-- Claim C8, witness: the amended statement applied to an established
handle, to a monsters run reusing it, and to the concrete starwars run
that tears the handle down. -/
theorem claim_C8_witness :
    initCouchbase ⟨some 7, 1⟩ = (7, ⟨some 7, 1⟩) ∧
    (Monsters.findSimilarMonsters dsM "dragon" ⟨some 7, 1⟩).2.1 =
      ⟨some 7, 1⟩ ∧
    (StarWars.findSimilarCharacters dsSW "Tatooine" connInit).2.1.cluster =
      none :=
  ⟨claim_C8_theorem.1 ⟨some 7, 1⟩ 7 rfl,
   claim_C8_theorem.2.2.1 dsM "dragon" ⟨some 7, 1⟩ 7 rfl,
   claim_C8_theorem.2.2.2.1 dsSW "Tatooine" connInit tatooineDoc [1, 2, 3]
     [⟨"p1", 95⟩] (by rfl) rfl rfl (by decide)⟩

/-- Claim C9: the canonicalization rule maps `tatooine` and `Tatooine` to
the same canonical key `Tatooine`, and therefore `getCharacter` — a
deterministic function of its inputs — returns the same outcome for both
spellings against any unchanged datastore. -/
theorem claim_C9_theorem :
    StarWars.capitalizeFirstLetter "tatooine" = "Tatooine" ∧
    StarWars.capitalizeFirstLetter "Tatooine" = "Tatooine" ∧
    ∀ (ds : StarWars.Datastore) (s : ConnState),
      StarWars.getCharacter ds "tatooine" s =
        StarWars.getCharacter ds "Tatooine" s := by
  refine ⟨by decide, by decide, ?_⟩
  intro ds s
  exact StarWars.getCharacter_congr ds "tatooine" "Tatooine" s
    (by decide) (by decide) (by decide)

/-- Claim C10: a tool-call request whose tool name is none of the exposed
operation names makes the handler of either server throw an `Unknown tool`
exception — not return a structured error payload — with no datastore call
issued. -/
theorem claim_C10_theorem (dsm : Monsters.Datastore)
    (dssw : StarWars.Datastore) (t : String) (arg : NameArg) (s : ConnState)
    (h1 : t ≠ "fetch_monster_name")
    (h2 : t ≠ "find_monsters_which_are_similar")
    (h3 : t ≠ "fetch_planet_name")
    (h4 : t ≠ "find_planets_which_are_similar") :
    Monsters.callTool dsm t arg s =
      (Monsters.HandlerOutcome.thrown "Unknown tool", s, []) ∧
    StarWars.callTool dssw t arg s =
      (StarWars.HandlerOutcome.thrown "Unknown tool", s, []) := by
  constructor
  · simp only [Monsters.callTool, if_neg h1, if_neg h2]
  · simp only [StarWars.callTool, if_neg h3, if_neg h4]

/-- Claim C10, witness: the unknown-tool behaviour at the concrete tool
name `list_spells`. -/
theorem claim_C10_witness :
    Monsters.callTool dsMNotFound "list_spells" NameArg.absent connInit =
      (Monsters.HandlerOutcome.thrown "Unknown tool", connInit, []) ∧
    StarWars.callTool dsSW "list_spells" NameArg.absent connInit =
      (StarWars.HandlerOutcome.thrown "Unknown tool", connInit, []) :=
  claim_C10_theorem dsMNotFound dsSW "list_spells" NameArg.absent connInit
    (by decide) (by decide) (by decide) (by decide)

end CB
